import Mathlib

/-!
Verification of the decorator layer of django-view-accessories against its
specification.  The definitions below are a shallow embedding of the Python
source (`view_accessories/generic.py`, `list.py`, `edit.py`) together with the
parts of Django 1.5/1.6 that the source delegates to (`django.core.paginator`,
`django.http` response constructors, `django.shortcuts.redirect` and
`get_object_or_404`).  Requests are explicit values, mutation of the request
(the "accessorize" side effect) is modelled by returning the updated request,
and Python exceptions are modelled with `Except`.
-/

/-- An HTTP response as the decorators observe it: a status code, a list of
headers and a body.  `HttpResponse()` in Django defaults to status 200 with an
empty body. -/
structure HttpResponse where
  status : Nat
  headers : List (String × String)
  body : String
deriving DecidableEq, Repr

/-- Look up a header value (first match). -/
def headerValue (hs : List (String × String)) (k : String) : Option String :=
  ((hs.filter (fun p => p.1 = k)).map (fun p => p.2)).head?

/-- `django.http.HttpResponseNotAllowed(methods)`: status 405, with an Allow
header listing the permitted methods comma-joined. -/
def notAllowed (methods : List String) : HttpResponse :=
  { status := 405, headers := [("Allow", String.intercalate ", " methods)], body := "" }

/-- `django.http.HttpResponseGone()`: status 410. -/
def httpResponseGone : HttpResponse :=
  { status := 410, headers := [], body := "" }

/-- `django.http.HttpResponsePermanentRedirect(url)`: status 301 with a
Location header. -/
def httpResponsePermanentRedirect (url : String) : HttpResponse :=
  { status := 301, headers := [("Location", url)], body := "" }

/-- `django.http.HttpResponseRedirect(url)` (also what
`django.shortcuts.redirect(url)` builds for a plain URL): status 302 with a
Location header. -/
def httpResponseRedirect (url : String) : HttpResponse :=
  { status := 302, headers := [("Location", url)], body := "" }

/-! ## Django's paginator (django.core.paginator, Django 1.5/1.6)

`list.py` delegates to `Paginator`/`InvalidPage`; the exact formulas of the
pinned Django version (`install_requires=['Django>=1.5.5,<1.7']`) are embedded
here: `num_pages = ceil(max(1, count - orphans) / per_page)` (0 for an empty
collection when `allow_empty_first_page` is false), and `page(number)` slices
`[bottom:top]` with `top` extended to `count` when `top + orphans >= count`.
`per_page = 0` would raise `ZeroDivisionError` in Python; no claim exercises
it, and every theorem below assumes `0 < per_page`. -/

/-- The `InvalidPage` exception hierarchy of `django.core.paginator`. -/
inductive InvalidPage
  | page_not_an_integer
  | less_than_one
  | no_results
deriving DecidableEq, Repr

/-- The message each `InvalidPage` variant carries in Django 1.5/1.6. -/
def InvalidPage.message : InvalidPage → String
  | .page_not_an_integer => "That page number is not an integer"
  | .less_than_one => "That page number is less than 1"
  | .no_results => "That page contains no results"

/-- `django.core.paginator.Paginator`, over an explicit item list. -/
structure Paginator (α : Type) where
  object_list : List α
  per_page : Nat
  orphans : Nat
  allow_empty_first_page : Bool

/-- `Paginator.count`: the length of the object list. -/
def Paginator.count (p : Paginator α) : Nat := p.object_list.length

/-- `Paginator.num_pages`: 0 for an empty list when empty first pages are
disallowed, else `ceil(max(1, count - orphans) / per_page)`. -/
def Paginator.num_pages (p : Paginator α) : Nat :=
  if p.count = 0 ∧ p.allow_empty_first_page = false then 0
  else (max 1 (p.count - p.orphans) + p.per_page - 1) / p.per_page

/-- `Paginator.validate_number` for an argument that is already an integer
(the only way `list.py` calls it): below 1 raises `EmptyPage('That page number
is less than 1')`; above `num_pages` raises `EmptyPage('That page contains no
results')` unless it is 1 and an empty first page is allowed. -/
def Paginator.validate_number (p : Paginator α) (number : Int) : Except InvalidPage Nat :=
  if number < 1 then .error .less_than_one
  else if (p.num_pages : Int) < number then
    if number = 1 ∧ p.allow_empty_first_page then .ok 1
    else .error .no_results
  else .ok number.toNat

/-- One page, as `django.core.paginator.Page`: the sliced items, the 1-based
page number, and (standing in for the back-reference to the paginator) the
total page count. -/
structure Page (α : Type) where
  object_list : List α
  number : Nat
  num_pages : Nat
deriving DecidableEq, Repr

/-- `Page.has_next()`. -/
def Page.has_next (pg : Page α) : Bool := pg.number < pg.num_pages

/-- `Page.has_previous()`. -/
def Page.has_previous (pg : Page α) : Bool := 1 < pg.number

/-- `Page.has_other_pages()`. -/
def Page.has_other_pages (pg : Page α) : Bool := pg.has_previous || pg.has_next

/-- `Paginator.page(number)`: validate, then slice `[bottom:top]` where
`bottom = (number-1)*per_page`, `top = bottom + per_page`, extended to `count`
when `top + orphans >= count`. -/
def Paginator.page (p : Paginator α) (number : Int) : Except InvalidPage (Page α) := do
  let n ← p.validate_number number
  let bottom := (n - 1) * p.per_page
  let top0 := bottom + p.per_page
  let top := if p.count ≤ top0 + p.orphans then p.count else top0
  .ok { object_list := (p.object_list.drop bottom).take (top - bottom),
        number := n, num_pages := p.num_pages }

/-- The item sequence of page `number` (empty for an invalid page); a helper
for stating theorems about page contents. -/
def Paginator.pageObjects (p : Paginator α) (number : Nat) : List α :=
  match p.page (number : Int) with
  | .ok pg => pg.object_list
  | .error _ => []

/-- The "pagination" accessory stored by `paginate_queryset` (list.py, lines
224-229): the paginator, the resolved page, its items, and whether other pages
exist. -/
structure Pagination (α : Type) where
  paginator : Paginator α
  page : Page α
  objects : List α
  has_other_pages : Bool

/-! ## Requests and the context store -/

/-- A Django `HttpRequest` as the decorators observe it: the HTTP method, the
`GET` and `POST` query dictionaries (key/value lists; a `QueryDict` lookup
returns the last value for a repeated key), `META['QUERY_STRING']`, and the
optional `accessories` attribute (the per-request context store; `none` models
the attribute not existing).  `α` is the item type of paginated lists. -/
structure Request (α : Type) where
  method : String
  GET : List (String × String)
  POST : List (String × String)
  query_string : String
  accessories : Option (List (String × Pagination α))

/-- A request with the given method and query parameters and no context
store. -/
def plainRequest (α : Type) (m : String) (get : List (String × String)) : Request α :=
  { method := m, GET := get, POST := [], query_string := "", accessories := none }

/-- `QueryDict` lookup: the last value stored under the key, if any
(`MultiValueDict.__getitem__` returns `list_[-1]`). -/
def djGet (l : List (String × String)) (k : String) : Option String :=
  ((l.filter (fun p => p.1 = k)).map (fun p => p.2)).getLast?

/-- Update one key of an association list (used by `dict.update`). -/
def updateAssoc (d : List (String × β)) (k : String) (v : β) : List (String × β) :=
  if d.any (fun p => p.1 = k) then d.map (fun p => if p.1 = k then (k, v) else p)
  else d ++ [(k, v)]

/-- `view_accessories.accessorize(request, key=value)`: create the
`accessories` dict if the request has none, then update it. -/
def accessorize (request : Request α) (k : String) (v : Pagination α) : Request α :=
  let d := match request.accessories with
    | some d => d
    | none => []
  { request with accessories := some (updateAssoc d k v) }

/-! ## The method gate (generic.py) -/

/-- `generic.HTTP_METHODS`: the full standard verb set. -/
def HTTP_METHODS : List String :=
  ["GET", "POST", "PUT", "PATCH", "DELETE", "HEAD", "OPTIONS", "TRACE"]

/-- The allowed-method list the gate actually uses: `methods = methods or
HTTP_METHODS` falls back to the full set when `methods` is `None` or an empty
(falsy) list. -/
def effectiveMethods (methods : Option (List String)) : List String :=
  match methods with
  | some ms => if ms.isEmpty then HTTP_METHODS else ms
  | none => HTTP_METHODS

/-- `generic.options(request, methods)`: a fresh `HttpResponse()` (status 200,
empty body) with `Allow` set to the comma-space join of the methods and
`Content-Length` set to `'0'`. -/
def options (_request : Request α) (methods : List String) : HttpResponse :=
  { status := 200,
    headers := [("Allow", String.intercalate ", " methods), ("Content-Length", "0")],
    body := "" }

/-- `generic.view(func, methods)`: the method gate.  `Sum.inl` is a
short-circuit response, `Sum.inr` the wrapped handler's result.  In Python the
decorator is curried (`view(methods=m)(func)` or bare `view(func)`); partial
application order is not observable here. -/
def view (methods : Option (List String)) (func : Request α → β) (request : Request α) :
    Sum HttpResponse β :=
  let ms := effectiveMethods methods
  if request.method = "OPTIONS" then .inl (options request ms)
  else if ms.contains request.method = false then .inl (notAllowed ms)
  else .inr (func request)

/-! ## template_view and redirect_view (generic.py) -/

/-- What `template_view` hands to `django.shortcuts.render` as the context:
either the wrapped function's context dict (or, when it returned `None`, the
wrapper's keyword arguments), or — when the gate short-circuited — the
`HttpResponse` object itself, since the wrapper only checks the gate's return
value against `None`. -/
inductive RenderContext (κ : Type)
  | resp (r : HttpResponse)
  | dict (d : κ)
deriving DecidableEq, Repr

/-- The response `django.shortcuts.render` produces: a status-200
`HttpResponse` whose body is the named template rendered with the given
context; template name, context and content type are kept explicit so theorems
can inspect what was rendered. -/
structure RenderedResponse (κ : Type) where
  status : Nat
  template_name : String
  context : RenderContext κ
  content_type : Option String
deriving DecidableEq, Repr

/-- `django.shortcuts.render(request, template_name, context, content_type)`. -/
def render (_request : Request α) (template_name : String) (context : RenderContext κ)
    (content_type : Option String) : RenderedResponse κ :=
  { status := 200, template_name := template_name, context := context,
    content_type := content_type }

/-- The part of `s` before the first occurrence of `sep` (Python
`s.partition(sep)[0]`; the whole string when `sep` does not occur). -/
def beforeFirst (s sep : String) : String :=
  match s.splitOn sep with
  | x :: _ => x
  | [] => s

/-- The default template name `'%s/%s.html' % (func.__module__.partition('.views')[0],
func.__name__)`, with the function's module and name as explicit inputs. -/
def defaultTemplateName (funcModule funcName : String) : String :=
  beforeFirst funcModule ".views" ++ "/" ++ funcName ++ ".html"

/-- `generic.template_view`: run the gated function, use its return value as
the render context when it is not `None` (the wrapper's keyword arguments
otherwise), and render the template.  Note the gate's short-circuit responses
are not `None` either, so they too become the render context.  `template_name
or default` treats an empty string as unset.  `funcModule`/`funcName` stand
for the wrapped function's `__module__`/`__name__`. -/
def template_view (template_name : Option String) (content_type : Option String)
    (methods : Option (List String)) (funcModule funcName : String)
    (func : Request α → Option κ) (kwargs : κ) (request : Request α) :
    RenderedResponse κ :=
  let response := view methods func request
  let context : RenderContext κ :=
    match response with
    | .inl resp => .resp resp
    | .inr (some d) => .dict d
    | .inr none => .dict kwargs
  let my_template_name :=
    match template_name with
    | some t => if t = "" then defaultTemplateName funcModule funcName else t
    | none => defaultTemplateName funcModule funcName
  render request my_template_name context content_type

/-- Stand-in for Python `str()` applied to an `HttpResponse`: `redirect_view`
formats the gate's short-circuit responses into the redirect URL this way (its
`url` local is checked only for truthiness, and any response object is
truthy).  No claim depends on the exact string, only on the branch taken. -/
def strOfResponse (r : HttpResponse) : String :=
  "HttpResponse " ++ toString r.status

/-- `generic.redirect_view`: the gated function returns the URL; a falsy URL
(`None`/`False` modelled as `none`, or the empty string) yields 410 Gone;
otherwise the query string is appended when `query_string` is set and a
301 (permanent, the default) or 302 redirect is returned. -/
def redirect_view (permanent : Bool) (query_string : Bool)
    (methods : Option (List String)) (func : Request α → Option String)
    (request : Request α) : HttpResponse :=
  let url : Option String :=
    match view methods func request with
    | .inl resp => some (strOfResponse resp)
    | .inr u => u
  match url with
  | none => httpResponseGone
  | some u =>
    if u = "" then httpResponseGone
    else
      let proper_url := if query_string then u ++ "?" ++ request.query_string else u
      if permanent then httpResponsePermanentRedirect proper_url
      else httpResponseRedirect proper_url

/-! ## The pagination resolver (list.py) -/

/-- The whitespace characters Python `int()` strips. -/
def pySpace (c : Char) : Bool :=
  c = ' ' || c = Char.ofNat 9 || c = Char.ofNat 10 || c = Char.ofNat 11
    || c = Char.ofNat 12 || c = Char.ofNat 13

/-- Python `int(s)` on a string: optional surrounding whitespace, an optional
sign, then at least one ASCII digit; `none` models `ValueError`. -/
def pyInt (s : String) : Option Int :=
  let t := ((s.toList.dropWhile pySpace).reverse.dropWhile pySpace).reverse
  match t with
  | [] => none
  | c :: rest =>
    let digits := if c = '-' ∨ c = '+' then rest else c :: rest
    let sign : Int := if c = '-' then -1 else 1
    if digits.isEmpty ∨ digits.any (fun d => d.isDigit = false) then none
    else some (sign * (digits.foldl (fun a d => a * 10 + (d.toNat - 48)) 0 : Nat))

/-- The `per_page`/`page_size` argument of `paginate_queryset`: in Python it is
either already a number or a string naming a query parameter. -/
inductive PerPage
  | num (n : Int)
  | str (s : String)

/-- How a `paginate_queryset` call can fail: `Http404` (`django.http.Http404`),
or the uncaught `MultiValueDictKeyError` / `ValueError` escaping from
`int(request.GET[per_page])`. -/
inductive PQError
  | http404 (msg : String)
  | key_error (key : String)
  | value_error (val : String)
deriving DecidableEq, Repr

/-- Lines 203-206 of list.py: `per_page = int(per_page)` and, on `ValueError`,
`per_page = int(request.GET[per_page])`.  A missing query parameter raises
`MultiValueDictKeyError` and an unparsable value raises `ValueError`; neither
is caught. -/
def perPageValue (request : Request α) (per_page : PerPage) : Except PQError Int :=
  match per_page with
  | .num n => .ok n
  | .str s =>
    match pyInt s with
    | some n => .ok n
    | none =>
      match djGet request.GET s with
      | none => .error (.key_error s)
      | some v =>
        match pyInt v with
        | some n => .ok n
        | none => .error (.value_error v)

/-- The Http404 message raised for a page token that is neither an integer nor
the literal `'last'` (list.py line 220). -/
def pageNotLastMsg : String :=
  "Page is not \x27last\x27, nor can it be converted to an int."

/-- Lines 211-220 of list.py: `page = request.GET.get(page_kwarg, 1)`, then
`int(page)` with the `ValueError` handler resolving the literal `'last'` to
the final page and raising `Http404` for anything else. -/
def resolvePageNumber (tok : Option String) (num_pages : Nat) : Except PQError Int :=
  match tok with
  | none => .ok 1
  | some s =>
    match pyInt s with
    | some n => .ok n
    | none =>
      if s = "last" then .ok (num_pages : Int)
      else .error (.http404 pageNotLastMsg)

/-- `list.paginate_queryset(request, queryset, page_kwarg, per_page, orphans,
allow_empty_first_page)`: resolve the page size, build the paginator, read the
page token (defaulting to the integer 1) via `resolvePageNumber`, look the
page up, and accessorize the request with the pagination dict.  The source
mutates `request` and returns `None`; the mutation is modelled by returning
the updated request alongside the stored pagination value.  A negative
resolved page size (impossible in the claims, which require a positive size)
is clamped to 0 by `Int.toNat` where Python would go on to divide by a
negative number. -/
def paginate_queryset (request : Request α) (queryset : List α) (page_kwarg : String)
    (per_page : PerPage) (orphans : Nat) (allow_empty_first_page : Bool) :
    Except PQError (Request α × Pagination α) := do
  let pp ← perPageValue request per_page
  let paginator : Paginator α :=
    { object_list := queryset, per_page := pp.toNat, orphans := orphans,
      allow_empty_first_page := allow_empty_first_page }
  let n ← resolvePageNumber (djGet request.GET page_kwarg) paginator.num_pages
  match paginator.page n with
  | .ok page =>
    let pag : Pagination α :=
      { paginator := paginator, page := page, objects := page.object_list,
        has_other_pages := page.has_other_pages }
    .ok (accessorize request "pagination" pag, pag)
  | .error e => .error (.http404 ("Invalid page " ++ toString n ++ ": " ++ e.message))

/-! ## list_view (list.py) -/

/-- How a `list_view` call can fail: `ImproperlyConfigured`, `Http404`, or an
error escaping from `paginate_queryset`. -/
inductive ListViewError
  | improperly_configured (msg : String)
  | http404 (msg : String)
  | key_error (key : String)
  | value_error (val : String)
deriving DecidableEq, Repr

/-- Lift a pagination error into a `list_view` error. -/
def ListViewError.ofPQ : PQError → ListViewError
  | .http404 m => .http404 m
  | .key_error k => .key_error k
  | .value_error v => .value_error v

/-- The `ImproperlyConfigured` message of `_get_qs_or_404`. -/
def mustDefineMsg : String := "Must define \x27queryset\x27 or \x27model\x27"

/-- `list._get_qs_or_404(model, queryset, allow_empty)`.  `model` stands for a
model class together with its table (`model._default_manager.all()`); a class
is always truthy, so any supplied model wins.  A supplied `queryset` is a
Django QuerySet, whose Python truthiness is non-emptiness, so an empty
pre-built queryset also falls through to `ImproperlyConfigured`.  `_clone` is
the identity on value-level lists.  Finally an empty result with
`allow_empty=False` raises `Http404('Empty list')`. -/
def _get_qs_or_404 (model queryset : Option (List α)) (allow_empty : Bool) :
    Except ListViewError (List α) := do
  let qs ←
    match model with
    | some m => Except.ok m
    | none =>
      match queryset with
      | some qs =>
        if qs.isEmpty then Except.error (ListViewError.improperly_configured mustDefineMsg)
        else Except.ok qs
      | none => Except.error (ListViewError.improperly_configured mustDefineMsg)
  if allow_empty = false ∧ qs.isEmpty then Except.error (ListViewError.http404 "Empty list")
  else Except.ok qs

/-- `list.list_view(...)` applied to a handler and a request.  Nothing happens
at decoration time: the Python decorator only builds and returns the closure,
and `_get_qs_or_404` runs inside it, per request.  The source calls the gate as
`view(methods)(func)`, which passes `methods` as the gate's `func` positional;
only the default `methods=None` configuration — under which this collapses to
the plain gate with the full verb set — is modelled (any non-None value would
make the gate treat the method list itself as the wrapped function and crash
on every request). -/
def list_view (model queryset : Option (List α)) (paginate : Bool) (page_size : PerPage)
    (paginate_orphans : Nat) (page_kwarg : String) (allow_empty : Bool)
    (func : Request α → List α → β) (request : Request α) :
    Except ListViewError (Sum HttpResponse β) :=
  match _get_qs_or_404 model queryset allow_empty with
  | .error e => .error e
  | .ok qs =>
    if paginate then
      match paginate_queryset request qs page_kwarg page_size paginate_orphans allow_empty with
      | .ok (r2, _) => .ok (view none (fun r => func r qs) r2)
      | .error e => .error (ListViewError.ofPQ e)
    else .ok (view none (fun r => func r qs) request)

/-! ## form_view (edit.py) -/

/-- A Django form class, abstracted to what `edit.form_view` consumes: a
validity predicate on submitted data and whether the class exposes `save`. -/
structure FormClass where
  validOn : List (String × String) → Bool
  hasSave : Bool

/-- A form instance: bound with data, or unbound.  `valid` models
`is_valid()`, which is false for unbound forms. -/
structure FormInstance where
  is_bound : Bool
  data : List (String × String)
  valid : Bool
deriving DecidableEq, Repr

/-- `form(request.POST)`: a bound form. -/
def FormClass.bound (cls : FormClass) (data : List (String × String)) : FormInstance :=
  { is_bound := true, data := data, valid := cls.validOn data }

/-- `form()`: an unbound form (never valid). -/
def FormClass.unbound (_cls : FormClass) : FormInstance :=
  { is_bound := false, data := [], valid := false }

/-- Python truthiness of an optional string (`None` and `''` are falsy). -/
def pyTruthy (s : Option String) : Bool :=
  match s with
  | some u => u.isEmpty = false
  | none => false

/-- The value `edit.form_view`'s wrapper returns, together with the
intermediate `response` local of its POST branch (the gated handler result
computed before the success-redirect decision) and whether `my_form.save()`
was invoked. -/
structure FormViewOutcome (β : Type) where
  result : Sum HttpResponse β
  inner : Sum HttpResponse β
  saved : Bool

/-- `edit.form_view(form, success_url, methods)` applied to a handler and a
request.  On POST the form is bound to `request.POST`, saved when valid and
the class has `save`, and the gated handler runs; the handler's response is
replaced by a redirect exactly when `success_url` is truthy and the form was
valid.  On any other method the handler runs with an unbound form.  (`inner`
equals `result` outside the POST branch.) -/
def form_view (form : FormClass) (success_url : Option String)
    (methods : Option (List String)) (func : Request α → FormInstance → β)
    (request : Request α) : FormViewOutcome β :=
  let my_form :=
    if request.method = "POST" then form.bound request.POST else form.unbound
  if request.method = "POST" then
    let valid := my_form.valid
    let saved := valid && form.hasSave
    let response := view methods (fun r => func r my_form) request
    if pyTruthy success_url && valid then
      { result := Sum.inl (httpResponseRedirect ((success_url.getD ""))),
        inner := response, saved := saved }
    else { result := response, inner := response, saved := saved }
  else
    let response := view methods (fun r => func r my_form) request
    { result := response, inner := response, saved := false }

/-! ## delete_view (edit.py) -/

/-- The test app's model: a primary key and a text field. -/
structure Widget where
  pk : Nat
  text : String
deriving DecidableEq, Repr

/-- How resolving the entity can fail: `Http404` from `get_object_or_404`, or
`MultipleObjectsReturned` (which `get_object_or_404` does not catch). -/
inductive DetailError
  | http404 (msg : String)
  | multiple_objects_returned
deriving DecidableEq, Repr

/-- `django.shortcuts.get_object_or_404(model, **{field: lookup})` over an
explicit table: exactly one match is returned; no match raises `Http404`;
several matches raise `MultipleObjectsReturned`. -/
def get_object_or_404 (objects : List Widget) (pred : Widget → Bool) :
    Except DetailError Widget :=
  match objects.filter pred with
  | [] => .error (.http404 "No Widget matches the given query.")
  | [obj] => .ok obj
  | _ => .error .multiple_objects_returned

/-- `edit.delete_view(model, field, kwarg, success_url, methods)` applied to a
handler, a request, the model's table and the looked-up key value.  The entity
is resolved first; the gated handler runs; on POST the entity is deleted
(`obj.delete()` removes the rows with its primary key) and, when `success_url`
is truthy, a redirect replaces the handler's response.  The updated table is
returned alongside the response.  As in `list_view`, the source calls
`view(methods)(func)` and only the default `methods=None` configuration is
modelled. -/
def delete_view (success_url : Option String) (field : Widget → Nat)
    (func : Request α → Widget → β) (request : Request α)
    (objects : List Widget) (lookup : Nat) :
    Except DetailError (Sum HttpResponse β × List Widget) :=
  match get_object_or_404 objects (fun w => field w = lookup) with
  | .error e => .error e
  | .ok obj =>
    let response := view none (fun r => func r obj) request
    if request.method = "POST" then
      let remaining := objects.filter (fun w => w.pk != obj.pk)
      if pyTruthy success_url then
        .ok (Sum.inl (httpResponseRedirect (success_url.getD "")), remaining)
      else .ok (response, remaining)
    else .ok (response, objects)

/-! ## Spec-side definition for the orphan-merge comparison -/

/-- Modelled from the claim's words, not from the source: the page count under
"a final page with fewer than O items merges into the previous page, and at
least one page exists" — `N/P` full pages of `P` items plus a final remainder
page, the remainder page kept whenever it has `O` or more items and merged
only when it has fewer than `O`. -/
def claimNumPages (N P O : Nat) : Nat :=
  let full := N / P
  let r := N % P
  if r = 0 then max full 1
  else if r < O ∧ 1 ≤ full then full
  else full + 1

/-! ## Helper lemmas about the paginator -/

/-- With a positive page size and empty first pages allowed, `num_pages` is
`ceil(max 1 (count - orphans) / per_page)` and satisfies the two ceiling
bounds, and is at least 1. -/
theorem numPages_bounds (l : List α) (P O : Nat) (hP : 0 < P) :
    max 1 (l.length - O) ≤ (Paginator.mk l P O true).num_pages * P
    ∧ ((Paginator.mk l P O true).num_pages - 1) * P < max 1 (l.length - O)
    ∧ 1 ≤ (Paginator.mk l P O true).num_pages := by
  have hnp : (Paginator.mk l P O true).num_pages = (max 1 (l.length - O) + P - 1) / P := by
    simp [Paginator.num_pages, Paginator.count]
  have hH : 1 ≤ max 1 (l.length - O) := le_max_left 1 _
  have hq1 : 1 ≤ (max 1 (l.length - O) + P - 1) / P := by
    rw [Nat.one_le_div_iff hP]
    omega
  have hd := Nat.div_add_mod (max 1 (l.length - O) + P - 1) P
  have hr : (max 1 (l.length - O) + P - 1) % P < P := Nat.mod_lt _ hP
  rw [hnp]
  rw [Nat.mul_comm P ((max 1 (l.length - O) + P - 1) / P)] at hd
  have hsub : ((max 1 (l.length - O) + P - 1) / P - 1) * P + P
      = ((max 1 (l.length - O) + P - 1) / P) * P := by
    have h1 : (max 1 (l.length - O) + P - 1) / P - 1 + 1
        = (max 1 (l.length - O) + P - 1) / P := Nat.succ_pred_eq_of_pos hq1
    calc ((max 1 (l.length - O) + P - 1) / P - 1) * P + P
        = ((max 1 (l.length - O) + P - 1) / P - 1 + 1) * P := (Nat.succ_mul _ _).symm
      _ = ((max 1 (l.length - O) + P - 1) / P) * P := by rw [h1]
  generalize hA : ((max 1 (l.length - O) + P - 1) / P) * P = A at hd hsub
  generalize hB : ((max 1 (l.length - O) + P - 1) / P - 1) * P = B at hsub
  refine ⟨?_, ?_, hq1⟩ <;> omega

/-- `validate_number` accepts every integer in `[1, num_pages]`. -/
theorem validate_ok (l : List α) (P O : Nat) (b : Bool) (n : Nat) (h1 : 1 ≤ n)
    (h2 : n ≤ (Paginator.mk l P O b).num_pages) :
    (Paginator.mk l P O b).validate_number (n : Int) = .ok n := by
  unfold Paginator.validate_number
  rw [if_neg, if_neg]
  · simp
  · omega
  · omega

/-- `validate_number` rejects integers below 1 with the `EmptyPage` variant
whose message is "That page number is less than 1". -/
theorem validate_low (l : List α) (P O : Nat) (b : Bool) (n : Int) (h : n < 1) :
    (Paginator.mk l P O b).validate_number n = .error .less_than_one := by
  unfold Paginator.validate_number
  rw [if_pos h]

/-- When at least one page exists, `validate_number` rejects integers above
`num_pages` with the `EmptyPage` variant whose message is "That page contains
no results". -/
theorem validate_high (l : List α) (P O : Nat) (b : Bool) (n : Int)
    (hq : 1 ≤ (Paginator.mk l P O b).num_pages)
    (h : ((Paginator.mk l P O b).num_pages : Int) < n) :
    (Paginator.mk l P O b).validate_number n = .error .no_results := by
  unfold Paginator.validate_number
  rw [if_neg, if_pos h, if_neg]
  · omega
  · omega

/-- For every valid page number, `page` succeeds and reports that number and
the total page count; the items are the `[bottom:top]` slice. -/
theorem page_ok (l : List α) (P O : Nat) (b : Bool) (n : Nat) (h1 : 1 ≤ n)
    (h2 : n ≤ (Paginator.mk l P O b).num_pages) :
    (Paginator.mk l P O b).page (n : Int)
      = .ok { object_list := (l.drop ((n - 1) * P)).take
                ((if l.length ≤ n * P + O then l.length else n * P) - (n - 1) * P),
              number := n, num_pages := (Paginator.mk l P O b).num_pages } := by
  unfold Paginator.page
  rw [validate_ok l P O b n h1 h2]
  show Except.ok _ = _
  have harith : (n - 1) * P + P = n * P := by
    calc (n - 1) * P + P = (n - 1 + 1) * P := (Nat.succ_mul _ _).symm
      _ = n * P := by rw [Nat.sub_add_cancel h1]
  simp only [Paginator.count, harith]

/-- Every page strictly before the last one holds exactly `per_page` items:
the slice `[bottom:top]` with `top = bottom + per_page`. -/
theorem page_middle (l : List α) (P O : Nat) (hP : 0 < P) (n : Nat) (h1 : 1 ≤ n)
    (h2 : n < (Paginator.mk l P O true).num_pages) :
    (Paginator.mk l P O true).page (n : Int)
      = .ok { object_list := (l.drop ((n - 1) * P)).take P, number := n,
              num_pages := (Paginator.mk l P O true).num_pages } := by
  obtain ⟨hub, hlb, hq1⟩ := numPages_bounds l P O hP
  have hcond : ¬ (l.length ≤ n * P + O) := by
    have hmono : n * P ≤ ((Paginator.mk l P O true).num_pages - 1) * P :=
      Nat.mul_le_mul_right P (by omega)
    generalize hA : n * P = A at hmono ⊢
    generalize hB : ((Paginator.mk l P O true).num_pages - 1) * P = B at hmono hlb
    have hPA : P ≤ A := by
      calc P = 1 * P := (Nat.one_mul P).symm
        _ ≤ n * P := Nat.mul_le_mul_right P h1
        _ = A := hA
    omega
  rw [page_ok l P O true n h1 (le_of_lt h2), if_neg hcond]
  have harith : n * P - (n - 1) * P = P := by
    have : (n - 1) * P + P = n * P := by
      calc (n - 1) * P + P = (n - 1 + 1) * P := (Nat.succ_mul _ _).symm
        _ = n * P := by rw [Nat.sub_add_cancel h1]
    omega
  rw [harith]

/-- The last page holds every remaining item: its `top` is clamped to
`count`. -/
theorem page_last (l : List α) (P O : Nat) (hP : 0 < P) :
    (Paginator.mk l P O true).page ((Paginator.mk l P O true).num_pages : Int)
      = .ok { object_list := l.drop (((Paginator.mk l P O true).num_pages - 1) * P),
              number := (Paginator.mk l P O true).num_pages,
              num_pages := (Paginator.mk l P O true).num_pages } := by
  obtain ⟨hub, hlb, hq1⟩ := numPages_bounds l P O hP
  have hcond : l.length ≤ (Paginator.mk l P O true).num_pages * P + O := by
    generalize hA : (Paginator.mk l P O true).num_pages * P = A at hub ⊢
    have hHN : l.length - O ≤ max 1 (l.length - O) := le_max_right 1 _
    omega
  have htake : (l.drop (((Paginator.mk l P O true).num_pages - 1) * P)).take
      (l.length - ((Paginator.mk l P O true).num_pages - 1) * P)
      = l.drop (((Paginator.mk l P O true).num_pages - 1) * P) := by
    apply List.take_of_length_le
    simp
  rw [page_ok l P O true _ hq1 (le_refl _), if_pos hcond, htake]


/-- Joining `k` consecutive chunks of `P` items is the first `k*P` items. -/
theorem chunks_join (P : Nat) (l : List α) :
    ∀ k, ((List.range k).map (fun i => (l.drop (i * P)).take P)).flatten = l.take (k * P) := by
  intro k
  induction k with
  | zero => simp
  | succ k ih =>
    rw [List.range_succ, List.map_append, List.flatten_append, ih]
    simp only [List.map_cons, List.map_nil, List.flatten_cons, List.flatten_nil,
      List.append_nil]
    rw [Nat.succ_mul, List.take_add]

/-- The pages partition the collection: joining the item sequences of pages
`1 .. num_pages` gives back the whole list. -/
theorem pages_partition (l : List α) (P O : Nat) (hP : 0 < P) :
    ((List.range (Paginator.mk l P O true).num_pages).map
        (fun i => (Paginator.mk l P O true).pageObjects (i + 1))).flatten = l := by
  obtain ⟨hub, hlb, hq1⟩ := numPages_bounds l P O hP
  have hq : (Paginator.mk l P O true).num_pages
      = ((Paginator.mk l P O true).num_pages - 1) + 1 := (Nat.sub_add_cancel hq1).symm
  rw [hq, List.range_succ, List.map_append, List.flatten_append]
  have hmid : ((List.range ((Paginator.mk l P O true).num_pages - 1)).map
        (fun i => (Paginator.mk l P O true).pageObjects (i + 1)))
      = (List.range ((Paginator.mk l P O true).num_pages - 1)).map
        (fun i => (l.drop (i * P)).take P) := by
    apply List.map_congr_left
    intro i hi
    rw [List.mem_range] at hi
    unfold Paginator.pageObjects
    rw [page_middle l P O hP (i + 1) (by omega) (by omega)]
    simp
  rw [hmid, chunks_join]
  have hlast : (Paginator.mk l P O true).pageObjects
        ((Paginator.mk l P O true).num_pages - 1 + 1)
      = l.drop (((Paginator.mk l P O true).num_pages - 1) * P) := by
    unfold Paginator.pageObjects
    rw [Nat.sub_add_cancel hq1, page_last l P O hP]
  simp only [List.map_cons, List.map_nil, List.flatten_cons, List.flatten_nil,
    List.append_nil]
  rw [hlast]
  simp [List.take_append_drop]

/-- Orphan merge: when the collection is `full` pages of `P` items plus a
positive remainder of at most `orphans` items (and the orphans do not cascade
into yet another page), the remainder is merged and `num_pages = full`. -/
theorem numPages_merge (l : List α) (P O full r : Nat) (hP : 0 < P)
    (hN : l.length = full * P + r) (_hr0 : 0 < r) (hrO : r ≤ O) (hOP : O < P + r)
    (hfull : 1 ≤ full) :
    (Paginator.mk l P O true).num_pages = full := by
  have hnp : (Paginator.mk l P O true).num_pages = (max 1 (l.length - O) + P - 1) / P := by
    simp [Paginator.num_pages, Paginator.count]
  have hfp : P ≤ full * P := by
    calc P = 1 * P := (Nat.one_mul P).symm
      _ ≤ full * P := Nat.mul_le_mul_right P hfull
  have hH : max 1 (full * P + r - O) = full * P + r - O := max_eq_right (by omega)
  rw [hnp, hN, hH]
  apply Nat.div_eq_of_lt_le
  · omega
  · rw [Nat.succ_mul]
    omega

/-- No merge: a positive remainder of more than `orphans` items keeps its own
final page and `num_pages = full + 1`. -/
theorem numPages_no_merge (l : List α) (P O full r : Nat) (hP : 0 < P)
    (hN : l.length = full * P + r) (_hr0 : 0 < r) (hrP : r < P) (hrO : O < r) :
    (Paginator.mk l P O true).num_pages = full + 1 := by
  have hnp : (Paginator.mk l P O true).num_pages = (max 1 (l.length - O) + P - 1) / P := by
    simp [Paginator.num_pages, Paginator.count]
  have hH : max 1 (full * P + r - O) = full * P + r - O := max_eq_right (by omega)
  rw [hnp, hN, hH]
  apply Nat.div_eq_of_lt_le
  · rw [Nat.succ_mul]
    omega
  · rw [Nat.succ_mul, Nat.succ_mul]
    omega

/-- Claim C1: for every allowed-method configuration (whose effective set
defaults to the full standard verb set), an OPTIONS request yields a status-200
response whose Allow header is the comma-space join of the effective set with a
zero-length body and without invoking the handler; any other method outside the
set yields status 405 without invoking the handler; an allowed method invokes
the handler with the original request and returns its result unchanged. -/
theorem view_gate_spec (methods : Option (List String)) (func g : Request γ → β)
    (r : Request γ) :
    effectiveMethods none = HTTP_METHODS
    ∧ (r.method = "OPTIONS" →
        view methods func r = Sum.inl (options r (effectiveMethods methods))
        ∧ (options r (effectiveMethods methods)).status = 200
        ∧ headerValue (options r (effectiveMethods methods)).headers "Allow"
            = some (String.intercalate ", " (effectiveMethods methods))
        ∧ (options r (effectiveMethods methods)).body = ""
        ∧ view methods func r = view methods g r)
    ∧ (r.method ≠ "OPTIONS" → (effectiveMethods methods).contains r.method = false →
        view methods func r = Sum.inl (notAllowed (effectiveMethods methods))
        ∧ (notAllowed (effectiveMethods methods)).status = 405
        ∧ view methods func r = view methods g r)
    ∧ (r.method ≠ "OPTIONS" → (effectiveMethods methods).contains r.method = true →
        view methods func r = Sum.inr (func r)) := by
  refine ⟨rfl, ?_, ?_, ?_⟩
  · intro h
    simp [view, h, options, headerValue]
  · intro h hc
    simp at hc
    simp [view, h, hc, notAllowed]
  · intro h hc
    simp at hc
    simp [view, h, hc]

/-- Concrete instances of the gate theorem: with allowed set {GET, POST}, an
OPTIONS request gets the Allow response, a PUT request gets the 405, and a GET
request reaches the handler. -/
theorem view_gate_spec_witness :
    view (some ["GET", "POST"]) (fun (r : Request Unit) => r.method)
        (plainRequest Unit "OPTIONS" [])
      = Sum.inl (options (plainRequest Unit "OPTIONS" []) ["GET", "POST"])
    ∧ (options (plainRequest Unit "OPTIONS" []) ["GET", "POST"]).status = 200
    ∧ view (some ["GET", "POST"]) (fun (r : Request Unit) => r.method)
        (plainRequest Unit "PUT" [])
      = Sum.inl (notAllowed ["GET", "POST"])
    ∧ view (some ["GET", "POST"]) (fun (r : Request Unit) => r.method)
        (plainRequest Unit "GET" [])
      = Sum.inr "GET" := by
  have h1 := (view_gate_spec (some ["GET", "POST"])
    (fun (r : Request Unit) => r.method) (fun r => r.method)
    (plainRequest Unit "OPTIONS" [])).2.1 rfl
  have h2 := (view_gate_spec (some ["GET", "POST"])
    (fun (r : Request Unit) => r.method) (fun r => r.method)
    (plainRequest Unit "PUT" [])).2.2.1 (by decide) (by decide)
  have h3 := (view_gate_spec (some ["GET", "POST"])
    (fun (r : Request Unit) => r.method) (fun r => r.method)
    (plainRequest Unit "GET" [])).2.2.2 (by decide) (by decide)
  exact ⟨h1.1, h1.2.1, h2.1, h3⟩

/-- Claim C6: the method gate does not create the context store.  A GET request
without an `accessories` attribute passes the gate and the handler observes
`none` — no context store exists — although `view`'s own docstring says the
decorator creates the attribute with an empty dictionary. -/
theorem view_gate_no_context_store :
    view none (fun (r : Request Unit) => r.accessories) (plainRequest Unit "GET" [])
      = Sum.inr none := rfl

/-- Claim C2 counterexample: the claim's merge rule "a final page with fewer
than O items merges into the previous page" predicts 3 pages for 12 items with
page size 5 and orphans 2 (the 2-item remainder is not *fewer than* 2, so it
would keep its own page), but the code merges a final page of *at most*
`orphans` items: Django's paginator yields 2 pages, the second holding 7
items. -/
theorem pagination_orphan_boundary_counterexample :
    claimNumPages 12 5 2 = 3
    ∧ (Paginator.mk (List.range 12) 5 2 true).num_pages = 2
    ∧ ((Paginator.mk (List.range 12) 5 2 true).pageObjects 2).length = 7 := by
  refine ⟨by decide, by decide, by decide⟩

/-- Claim C2 (amended): for every collection, page size `P > 0` and orphans
value `O`, pagination partitions the collection with a final page holding at
most `O` extra leftover items merged into it: at least one page exists when
empty first pages are allowed, every non-final page holds exactly `P` items,
the final page holds all remaining items, the pages joined give back the
collection, a positive remainder of at most `O` items merges into the previous
page while a remainder of more than `O` items keeps its own page; and for a
23-item collection with page size 5 and requested page 2, the resolved page
has 5 items, page number 2, and other pages exist. -/
theorem pagination_orphan_merge_amended (l : List α) (P O : Nat) (hP : 0 < P) :
    1 ≤ (Paginator.mk l P O true).num_pages
    ∧ (∀ n, 1 ≤ n → n < (Paginator.mk l P O true).num_pages →
        (Paginator.mk l P O true).pageObjects n = (l.drop ((n - 1) * P)).take P
        ∧ ((Paginator.mk l P O true).pageObjects n).length = P)
    ∧ (Paginator.mk l P O true).pageObjects (Paginator.mk l P O true).num_pages
        = l.drop (((Paginator.mk l P O true).num_pages - 1) * P)
    ∧ ((List.range (Paginator.mk l P O true).num_pages).map
        (fun i => (Paginator.mk l P O true).pageObjects (i + 1))).flatten = l
    ∧ (∀ full r, l.length = full * P + r → 0 < r → r ≤ O → O < P + r → 1 ≤ full →
        (Paginator.mk l P O true).num_pages = full)
    ∧ (∀ full r, l.length = full * P + r → 0 < r → r < P → O < r →
        (Paginator.mk l P O true).num_pages = full + 1)
    ∧ (paginate_queryset (plainRequest Nat "GET" [("page", "2")])
          (List.range 23) "page" (PerPage.num 5) 0 true).toOption.map
        (fun x => (x.2.objects.length, x.2.page.number, x.2.has_other_pages))
        = some (5, 2, true) := by
  obtain ⟨hub, hlb, hq1⟩ := numPages_bounds l P O hP
  refine ⟨hq1, ?_, ?_, pages_partition l P O hP, ?_, ?_, ?_⟩
  · intro n h1 h2
    have hobj : (Paginator.mk l P O true).pageObjects n = (l.drop ((n - 1) * P)).take P := by
      unfold Paginator.pageObjects
      rw [page_middle l P O hP n h1 h2]
    refine ⟨hobj, ?_⟩
    rw [hobj, List.length_take, List.length_drop]
    have hmono : n * P ≤ ((Paginator.mk l P O true).num_pages - 1) * P :=
      Nat.mul_le_mul_right P (by omega)
    have hH : n * P < max 1 (l.length - O) := lt_of_le_of_lt hmono hlb
    have hP1 : P ≤ n * P := by
      calc P = 1 * P := (Nat.one_mul P).symm
        _ ≤ n * P := Nat.mul_le_mul_right P h1
    have hsub : (n - 1) * P + P = n * P := by
      calc (n - 1) * P + P = (n - 1 + 1) * P := (Nat.succ_mul _ _).symm
        _ = n * P := by rw [Nat.sub_add_cancel h1]
    rcases lt_max_iff.mp hH with h | h
    · omega
    · generalize hA : n * P = A at h hP1 hsub
      generalize hB : (n - 1) * P = B at hsub ⊢
      have : P ≤ l.length - B := by omega
      omega
  · unfold Paginator.pageObjects
    rw [page_last l P O hP]
  · intro full r hN hr0 hrO hOP hfull
    exact numPages_merge l P O full r hP hN hr0 hrO hOP hfull
  · intro full r hN hr0 hrP hrO
    exact numPages_no_merge l P O full r hP hN hr0 hrP hrO
  · decide

/-- Concrete instance of the amended C2 theorem: 12 items, page size 5,
orphans 2 — the 2-item remainder merges and there are exactly 2 pages. -/
theorem pagination_orphan_merge_amended_witness :
    (Paginator.mk (List.range 12) 5 2 true).num_pages = 2 :=
  (pagination_orphan_merge_amended (List.range 12) 5 2 (by decide)).2.2.2.2.1
    2 2 (by decide) (by decide) (by decide) (by decide) (by decide)

/-- Bounds carried by a successful `validate_number` (with empty first pages
allowed and a positive page size). -/
theorem validate_bounds (l : List α) (P O : Nat) (hP : 0 < P) (n : Int) (m : Nat)
    (h : (Paginator.mk l P O true).validate_number n = .ok m) :
    1 ≤ m ∧ m ≤ (Paginator.mk l P O true).num_pages := by
  have hq1 := (numPages_bounds l P O hP).2.2
  unfold Paginator.validate_number at h
  split_ifs at h with h1 h2 h3
  · obtain ⟨h4, -⟩ := h3
    injection h with h
    omega
  · injection h with h
    omega

/-- Bounds carried by a successful `page` lookup. -/
theorem page_bounds (l : List α) (P O : Nat) (hP : 0 < P) (n : Int) (pg : Page α)
    (h : (Paginator.mk l P O true).page n = .ok pg) :
    1 ≤ pg.number ∧ pg.number ≤ (Paginator.mk l P O true).num_pages := by
  unfold Paginator.page at h
  cases hv : (Paginator.mk l P O true).validate_number n with
  | error e => rw [hv] at h; exact Except.noConfusion h
  | ok m =>
    rw [hv] at h
    have hb := validate_bounds l P O hP n m hv
    have : pg.number = m := by
      cases h
      rfl
    omega

/-- With an already-numeric page size, `paginate_queryset` is the page-number
resolution followed by the page lookup (definitional unfolding). -/
theorem paginate_num_eq (r : Request α) (l : List α) (k : String) (P O : Nat) (b : Bool) :
    paginate_queryset r l k (PerPage.num (P : Int)) O b
      = Except.bind (resolvePageNumber (djGet r.GET k) (Paginator.mk l P O b).num_pages)
          (fun n =>
            match (Paginator.mk l P O b).page n with
            | .ok page =>
              Except.ok (accessorize r "pagination"
                  { paginator := Paginator.mk l P O b, page := page,
                    objects := page.object_list,
                    has_other_pages := page.has_other_pages },
                { paginator := Paginator.mk l P O b, page := page,
                  objects := page.object_list,
                  has_other_pages := page.has_other_pages })
            | .error e =>
              Except.error (PQError.http404
                ("Invalid page " ++ toString n ++ ": " ++ e.message))) := rfl

/-- Claim C3 counterexample: two different non-numeric page tokens yield the
same fixed not-found message, and that message does not contain the token —
so for non-numeric values the signal's message does not name the invalid
page (it only describes the cause). -/
theorem page_token_message_counterexample :
    paginate_queryset (plainRequest Nat "GET" [("page", "abc")]) (List.range 23) "page"
        (PerPage.num 5) 0 true = .error (.http404 pageNotLastMsg)
    ∧ paginate_queryset (plainRequest Nat "GET" [("page", "xyz")]) (List.range 23) "page"
        (PerPage.num 5) 0 true = .error (.http404 pageNotLastMsg)
    ∧ ¬ "abc".toList <:+: pageNotLastMsg.toList := by
  refine ⟨rfl, rfl, by decide⟩

/-- The only error `resolvePageNumber` produces is the fixed Http404. -/
theorem resolvePageNumber_error (tok : Option String) (np : Nat) (e : PQError)
    (h : resolvePageNumber tok np = .error e) : e = .http404 pageNotLastMsg := by
  cases tok with
  | none =>
    simp only [resolvePageNumber] at h
    exact Except.noConfusion h
  | some s =>
    simp only [resolvePageNumber] at h
    cases hpy : pyInt s with
    | some n => rw [hpy] at h; exact Except.noConfusion h
    | none =>
      rw [hpy] at h
      by_cases hl : s = "last"
      · rw [if_pos hl] at h; exact Except.noConfusion h
      · rw [if_neg hl] at h; exact (Except.error.inj h).symm

/-- Claim C3 (amended): with a numeric page size, the page parameter defaults
to 1; an integer token in `[1, total_pages]` resolves to that page; an integer
below 1 or above `total_pages` yields a not-found signal whose message names
the invalid page and the underlying cause; the literal token "last" resolves
to the final page; any other non-numeric token yields a not-found signal with
a fixed message (which does not name the offending value); every failure is a
not-found signal, and every success stores a page with an in-range number into
the request's context store — never a partial result. -/
theorem page_number_resolution_amended (l : List α) (r : Request α) (k : String)
    (P O : Nat) (hP : 0 < P) :
    (djGet r.GET k = none →
      ∃ rq pag, paginate_queryset r l k (PerPage.num P) O true = .ok (rq, pag)
        ∧ pag.page.number = 1)
    ∧ (∀ s n, djGet r.GET k = some s → pyInt s = some n →
        (1 ≤ n → n ≤ ((Paginator.mk l P O true).num_pages : Int) →
          ∃ rq pag, paginate_queryset r l k (PerPage.num P) O true = .ok (rq, pag)
            ∧ (pag.page.number : Int) = n)
        ∧ (n < 1 →
          paginate_queryset r l k (PerPage.num P) O true
            = .error (.http404 ("Invalid page " ++ toString n ++ ": "
                ++ InvalidPage.less_than_one.message)))
        ∧ (((Paginator.mk l P O true).num_pages : Int) < n →
          paginate_queryset r l k (PerPage.num P) O true
            = .error (.http404 ("Invalid page " ++ toString n ++ ": "
                ++ InvalidPage.no_results.message))))
    ∧ (djGet r.GET k = some "last" →
        ∃ rq pag, paginate_queryset r l k (PerPage.num P) O true = .ok (rq, pag)
          ∧ pag.page.number = (Paginator.mk l P O true).num_pages)
    ∧ (∀ s, djGet r.GET k = some s → pyInt s = none → s ≠ "last" →
        paginate_queryset r l k (PerPage.num P) O true = .error (.http404 pageNotLastMsg))
    ∧ (∀ e, paginate_queryset r l k (PerPage.num P) O true = .error e →
        ∃ m, e = .http404 m)
    ∧ (∀ rq pag, paginate_queryset r l k (PerPage.num P) O true = .ok (rq, pag) →
        1 ≤ pag.page.number ∧ pag.page.number ≤ (Paginator.mk l P O true).num_pages
          ∧ rq = accessorize r "pagination" pag) := by
  have hq1 := (numPages_bounds l P O hP).2.2
  refine ⟨?_, ?_, ?_, ?_, ?_, ?_⟩
  · intro hget
    have hpage := page_ok l P O true 1 (le_refl 1) hq1
    rw [Nat.cast_one] at hpage
    rw [paginate_num_eq, hget]
    simp only [resolvePageNumber, Except.bind]
    rw [hpage]
    exact ⟨_, _, rfl, rfl⟩
  · intro s n hget hpy
    refine ⟨?_, ?_, ?_⟩
    · intro hn1 hn2
      have hmn : ((n.toNat : Nat) : Int) = n := Int.toNat_of_nonneg (by omega)
      have hpage := page_ok l P O true n.toNat (by omega) (by omega)
      rw [hmn] at hpage
      rw [paginate_num_eq, hget]
      simp only [resolvePageNumber, hpy, Except.bind]
      rw [hpage]
      exact ⟨_, _, rfl, hmn⟩
    · intro hlow
      have hpage : (Paginator.mk l P O true).page n = .error .less_than_one := by
        unfold Paginator.page
        rw [validate_low l P O true n hlow]
        rfl
      rw [paginate_num_eq, hget]
      simp only [resolvePageNumber, hpy, Except.bind]
      rw [hpage]
    · intro hhigh
      have hpage : (Paginator.mk l P O true).page n = .error .no_results := by
        unfold Paginator.page
        rw [validate_high l P O true n hq1 hhigh]
        rfl
      rw [paginate_num_eq, hget]
      simp only [resolvePageNumber, hpy, Except.bind]
      rw [hpage]
  · intro hget
    have hpage := page_last l P O hP
    rw [paginate_num_eq, hget]
    simp only [resolvePageNumber, show pyInt "last" = (none : Option Int) from rfl,
      if_true, Except.bind]
    rw [hpage]
    exact ⟨_, _, rfl, rfl⟩
  · intro s hget hpy hne
    rw [paginate_num_eq, hget]
    simp only [resolvePageNumber, hpy]
    rw [if_neg hne]
    rfl
  · intro e he
    rw [paginate_num_eq] at he
    cases hresolve : resolvePageNumber (djGet r.GET k) (Paginator.mk l P O true).num_pages with
    | error e2 =>
      rw [hresolve] at he
      simp only [Except.bind] at he
      have he2 := resolvePageNumber_error _ _ _ hresolve
      exact ⟨pageNotLastMsg, ((Except.error.inj he).symm).trans he2⟩
    | ok n =>
      rw [hresolve] at he
      simp only [Except.bind] at he
      cases hpage : (Paginator.mk l P O true).page n with
      | ok page =>
        rw [hpage] at he
        exact Except.noConfusion he
      | error e3 =>
        rw [hpage] at he
        exact ⟨_, (Except.error.inj he).symm⟩
  · intro rq pag h
    rw [paginate_num_eq] at h
    cases hresolve : resolvePageNumber (djGet r.GET k) (Paginator.mk l P O true).num_pages with
    | error e2 =>
      rw [hresolve] at h
      exact Except.noConfusion h
    | ok n =>
      rw [hresolve] at h
      simp only [Except.bind] at h
      cases hpage : (Paginator.mk l P O true).page n with
      | error e3 =>
        rw [hpage] at h
        exact Except.noConfusion h
      | ok page =>
        rw [hpage] at h
        injection h with hp
        injection hp with hA hB
        subst hB
        subst hA
        have hb := page_bounds l P O hP n page hpage
        exact ⟨hb.1, hb.2, rfl⟩

/-- Concrete instance of the amended C3 theorem: page 100 of a 23-item,
page-size-5 collection is out of range and the 404 message names the page and
the cause. -/
theorem page_number_resolution_amended_witness :
    paginate_queryset (plainRequest Nat "GET" [("page", "100")]) (List.range 23) "page"
        (PerPage.num 5) 0 true
      = .error (.http404 ("Invalid page " ++ toString (100 : Int) ++ ": "
          ++ InvalidPage.no_results.message)) :=
  (((page_number_resolution_amended (List.range 23)
        (plainRequest Nat "GET" [("page", "100")]) "page" 5 0 (by decide)).2.1
      "100" 100 rfl rfl).2.2) (by decide)

/-- Claim C4 counterexample: with page-size specification "page_size" naming a
query parameter absent from the request, `paginate_queryset` fails with the
uncaught dictionary-lookup error (`MultiValueDictKeyError`), not with a
not-found signal. -/
theorem page_size_error_counterexample :
    paginate_queryset (plainRequest Nat "GET" [("page", "2")]) (List.range 23) "page"
        (PerPage.str "page_size") 0 true = .error (.key_error "page_size")
    ∧ ∀ m, paginate_queryset (plainRequest Nat "GET" [("page", "2")]) (List.range 23) "page"
        (PerPage.str "page_size") 0 true ≠ .error (.http404 m) := by
  refine ⟨rfl, ?_⟩
  intro m h
  rw [show paginate_queryset (plainRequest Nat "GET" [("page", "2")]) (List.range 23) "page"
      (PerPage.str "page_size") 0 true = .error (.key_error "page_size") from rfl] at h
  simp at h

/-- Claim C4 (amended): a numeric page-size specification (including a numeric
string) is used directly; a non-numeric specification names a query parameter
whose value is parsed as an integer; a missing parameter propagates the
dictionary-lookup error and an unparsable value propagates the integer-parse
error — neither failure is converted to a not-found signal. -/
theorem page_size_resolution_amended (l : List α) (r : Request α) (k s : String)
    (O : Nat) (b : Bool) :
    (∀ n, pyInt s = some n →
      paginate_queryset r l k (PerPage.str s) O b = paginate_queryset r l k (PerPage.num n) O b)
    ∧ (pyInt s = none → djGet r.GET s = none →
        paginate_queryset r l k (PerPage.str s) O b = .error (.key_error s)
        ∧ ∀ m, paginate_queryset r l k (PerPage.str s) O b ≠ .error (.http404 m))
    ∧ (∀ v, pyInt s = none → djGet r.GET s = some v → pyInt v = none →
        paginate_queryset r l k (PerPage.str s) O b = .error (.value_error v)
        ∧ ∀ m, paginate_queryset r l k (PerPage.str s) O b ≠ .error (.http404 m))
    ∧ (∀ v n, pyInt s = none → djGet r.GET s = some v → pyInt v = some n →
        paginate_queryset r l k (PerPage.str s) O b
          = paginate_queryset r l k (PerPage.num n) O b) := by
  have hstr : ∀ pp, perPageValue r (PerPage.str s) = pp →
      paginate_queryset r l k (PerPage.str s) O b
        = Except.bind pp (fun n : Int =>
            paginate_queryset r l k (PerPage.num n) O b) := by
    intro pp hpp
    unfold paginate_queryset
    rw [hpp]
    cases pp with
    | error e => rfl
    | ok n =>
      show _ = paginate_queryset r l k (PerPage.num n) O b
      unfold paginate_queryset
      rfl
  refine ⟨?_, ?_, ?_, ?_⟩
  · intro n hpy
    have hpp : perPageValue r (PerPage.str s) = .ok n := by
      simp only [perPageValue, hpy]
    rw [hstr _ hpp]
    rfl
  · intro hpy hget
    have hpp : perPageValue r (PerPage.str s) = .error (.key_error s) := by
      simp only [perPageValue, hpy, hget]
    refine ⟨?_, ?_⟩
    · rw [hstr _ hpp]
      rfl
    · intro m h
      rw [hstr _ hpp] at h
      exact absurd (Except.error.inj h) (by simp)
  · intro v hpy hget hpyv
    have hpp : perPageValue r (PerPage.str s) = .error (.value_error v) := by
      simp only [perPageValue, hpy, hget, hpyv]
    refine ⟨?_, ?_⟩
    · rw [hstr _ hpp]
      rfl
    · intro m h
      rw [hstr _ hpp] at h
      exact absurd (Except.error.inj h) (by simp)
  · intro v n hpy hget hpyv
    have hpp : perPageValue r (PerPage.str s) = .ok n := by
      simp only [perPageValue, hpy, hget, hpyv]
    rw [hstr _ hpp]
    rfl

/-- Concrete instance of the amended C4 theorem: an unparsable page-size value
in the query string propagates the integer-parse error. -/
theorem page_size_resolution_amended_witness :
    paginate_queryset (plainRequest Nat "GET" [("page_size", "big")]) (List.range 23) "page"
        (PerPage.str "page_size") 0 true = .error (.value_error "big") :=
  (((page_size_resolution_amended (List.range 23)
      (plainRequest Nat "GET" [("page_size", "big")]) "page" "page_size" 0 true).2.2.1
    "big" rfl rfl rfl)).1

/-- The gate invokes the wrapped function whenever the method is allowed and
is not OPTIONS. -/
theorem view_pass (methods : Option (List String)) (func : Request γ → β) (r : Request γ)
    (h1 : r.method ≠ "OPTIONS") (h2 : (effectiveMethods methods).contains r.method = true) :
    view methods func r = Sum.inr (func r) := by
  simp at h2
  simp [view, h1, h2]

/-- Claim C5 counterexample: a `list_view` configured with BOTH a model and a
queryset raises no configuration error at any point — decoration succeeds and
the request is served from the model's objects. -/
theorem collection_resolver_counterexample :
    list_view (some [Widget.mk 1 "a"]) (some [Widget.mk 2 "b"]) false (PerPage.num 5) 0
        "page" true (fun _ qs => qs) (plainRequest Widget "GET" [])
      = .ok (Sum.inr [Widget.mk 1 "a"]) := rfl

/-- Claim C5 (amended): configuring neither a model nor a (non-empty, hence
truthy) queryset raises `ImproperlyConfigured` when a request is processed —
nothing is raised at decoration time, which merely builds the wrapper closure;
configuring both is accepted, the model taking precedence over the queryset. -/
theorem collection_resolver_amended (m q : List α) (paginate : Bool) (ps : PerPage)
    (po : Nat) (pk : String) (ae : Bool) (func : Request α → List α → β) (r : Request α) :
    list_view none none paginate ps po pk ae func r
      = .error (.improperly_configured mustDefineMsg)
    ∧ list_view (some m) (some q) paginate ps po pk ae func r
      = list_view (some m) none paginate ps po pk ae func r
    ∧ (q.isEmpty = true →
        list_view none (some q) paginate ps po pk ae func r
          = .error (.improperly_configured mustDefineMsg)) := by
  refine ⟨rfl, rfl, ?_⟩
  intro hq
  have hqe : q = [] := List.isEmpty_iff.mp hq
  subst hqe
  rfl

/-- Concrete instance of the amended C5 theorem: an empty (falsy) queryset
with no model raises `ImproperlyConfigured` at request time. -/
theorem collection_resolver_amended_witness :
    list_view none (some ([] : List Widget)) false (PerPage.num 5) 0 "page" true
        (fun _ qs => qs) (plainRequest Widget "GET" [])
      = .error (.improperly_configured mustDefineMsg) :=
  (collection_resolver_amended ([] : List Widget) [] false (PerPage.num 5) 0 "page" true
      (fun _ qs => qs) (plainRequest Widget "GET" [])).2.2 rfl

/-- Claim C7: a `template_view` around a handler with methods `["GET"]`, hit
with a POST request, does NOT return the gate's 405: the wrapper only compares
the gate's return value against `None`, so the `HttpResponseNotAllowed` object
becomes the template render context and a 200 rendered response is returned.
This contradicts the gate's own documented contract ("an HTTP 405 ... is
returned to the client") and the spec's short-circuit rule. -/
theorem template_view_swallows_405 :
    template_view (some "t.html") none (some ["GET"]) "app.views" "f"
        (fun (_ : Request Unit) => (none : Option Nat)) 0 (plainRequest Unit "POST" [])
      = { status := 200, template_name := "t.html",
          context := RenderContext.resp (notAllowed ["GET"]), content_type := none }
    ∧ (notAllowed ["GET"]).status = 405
    ∧ (template_view (some "t.html") none (some ["GET"]) "app.views" "f"
        (fun (_ : Request Unit) => (none : Option Nat)) 0 (plainRequest Unit "POST" [])).status
      = 200 := ⟨rfl, rfl, rfl⟩

/-- Claim C8: with the default method gate, a POST request invokes the handler
with the form bound to the request's POST data regardless of validity (the
`inner` response is always the handler's); the wrapper's result is a redirect
to the configured success target iff a (truthy) target is configured and the
bound form is valid; with no target or an invalid form the handler's response
is returned unchanged; a non-POST request invokes the handler with an unbound
form and returns its response unchanged, with no save and no redirect. -/
theorem form_view_redirect_iff (form : FormClass) (success_url : Option String)
    (func : Request γ → FormInstance → β) (r : Request γ) :
    (r.method = "POST" →
      (form_view form success_url none func r).inner
          = Sum.inr (func r (form.bound r.POST))
      ∧ (∀ u, success_url = some u → u ≠ "" → (form.bound r.POST).valid = true →
          (form_view form success_url none func r).result
            = Sum.inl (httpResponseRedirect u))
      ∧ (pyTruthy success_url = false →
          (form_view form success_url none func r).result
            = Sum.inr (func r (form.bound r.POST)))
      ∧ ((form.bound r.POST).valid = false →
          (form_view form success_url none func r).result
            = Sum.inr (func r (form.bound r.POST)))
      ∧ (form_view form success_url none func r).saved
          = ((form.bound r.POST).valid && form.hasSave))
    ∧ (r.method ≠ "POST" → r.method ≠ "OPTIONS" → HTTP_METHODS.contains r.method = true →
        (form_view form success_url none func r).result = Sum.inr (func r form.unbound)
        ∧ (form_view form success_url none func r).saved = false) := by
  constructor
  · intro hm
    have hop : r.method ≠ "OPTIONS" := by rw [hm]; decide
    have hgate := view_pass none (fun rr => func rr (form.bound r.POST)) r hop
      (by rw [hm]; decide)
    refine ⟨?_, ?_, ?_, ?_, ?_⟩
    · simp [form_view, hm, hgate, apply_ite]
    · intro u hu hne hval
      have hie : u.isEmpty = false := by
        cases hie2 : u.isEmpty with
        | false => rfl
        | true => exact absurd ((String.isEmpty_iff u).mp hie2) hne
      simp [form_view, hm, hu, hval, pyTruthy, hie]
    · intro hfalse
      simp [form_view, hm, hfalse, hgate]
    · intro hval
      simp [form_view, hm, hval, hgate]
    · simp [form_view, hm, apply_ite]
  · intro hm hop hin
    have hgate := view_pass none (fun rr => func rr form.unbound) r hop hin
    constructor
    · simp [form_view, hm, hgate]
    · simp [form_view, hm]

/-- Concrete instances of the C8 theorem: a valid POST with a configured
target redirects; an invalid POST returns the handler's response (here the
form's validity flag) unchanged. -/
theorem form_view_redirect_iff_witness :
    (form_view { validOn := fun d => d.any (fun p => p.1 = "age"), hasSave := false }
        (some "/ok") none (fun (_ : Request Unit) f => f.valid)
        { method := "POST", GET := [], POST := [("age", "5")], query_string := "",
          accessories := none }).result
      = Sum.inl (httpResponseRedirect "/ok")
    ∧ (form_view { validOn := fun d => d.any (fun p => p.1 = "age"), hasSave := false }
        (some "/ok") none (fun (_ : Request Unit) f => f.valid)
        { method := "POST", GET := [], POST := [], query_string := "",
          accessories := none }).result
      = Sum.inr false := by
  constructor
  · exact ((form_view_redirect_iff
      { validOn := fun d => d.any (fun p => p.1 = "age"), hasSave := false }
      (some "/ok") (fun (_ : Request Unit) f => f.valid)
      { method := "POST", GET := [], POST := [("age", "5")], query_string := "",
        accessories := none }).1 rfl).2.1 "/ok" rfl (by decide) (by decide)
  · exact ((form_view_redirect_iff
      { validOn := fun d => d.any (fun p => p.1 = "age"), hasSave := false }
      (some "/ok") (fun (_ : Request Unit) f => f.valid)
      { method := "POST", GET := [], POST := [], query_string := "",
        accessories := none }).1 rfl).2.2.2.1 (by decide)

/-- A successful `get_object_or_404` means the filter found exactly that one
object. -/
theorem get_object_or_404_ok (objects : List Widget) (p : Widget → Bool) (obj : Widget)
    (h : get_object_or_404 objects p = .ok obj) :
    objects.filter p = [obj] := by
  unfold get_object_or_404 at h
  cases hf : objects.filter p with
  | nil => rw [hf] at h; exact Except.noConfusion h
  | cons a t =>
    cases t with
    | nil =>
      rw [hf] at h
      rw [Except.ok.inj h]
    | cons b t2 => rw [hf] at h; exact Except.noConfusion h

/-- Claim C9: for a resolvable entity, a GET request leaves the table
unchanged (the entity still exists) and returns the handler's response; a POST
request removes the entity's rows — it is no longer resolvable afterwards —
and returns a redirect to the configured (truthy) success target instead of
the handler's response. -/
theorem delete_view_spec (success_url : Option String) (func : Request γ → Widget → β)
    (objects : List Widget) (lookup : Nat) (obj : Widget)
    (hres : get_object_or_404 objects (fun w => w.pk = lookup) = .ok obj) :
    (∀ r : Request γ, r.method = "GET" →
      delete_view success_url (fun w => w.pk) func r objects lookup
        = .ok (Sum.inr (func r obj), objects))
    ∧ (∀ r : Request γ, r.method = "POST" →
        (∀ u, success_url = some u → u ≠ "" →
          delete_view success_url (fun w => w.pk) func r objects lookup
            = .ok (Sum.inl (httpResponseRedirect u),
                objects.filter (fun w => w.pk != obj.pk)))
        ∧ (pyTruthy success_url = false →
          delete_view success_url (fun w => w.pk) func r objects lookup
            = .ok (Sum.inr (func r obj), objects.filter (fun w => w.pk != obj.pk))))
    ∧ get_object_or_404 (objects.filter (fun w => w.pk != obj.pk)) (fun w => w.pk = lookup)
        = .error (.http404 "No Widget matches the given query.") := by
  have hfilter := get_object_or_404_ok objects _ obj hres
  have hmem : obj ∈ objects.filter (fun w => decide (w.pk = lookup)) := by
    rw [hfilter]
    exact List.mem_singleton_self obj
  have hobjpk : obj.pk = lookup := of_decide_eq_true (List.mem_filter.mp hmem).2
  refine ⟨?_, ?_, ?_⟩
  · intro r hm
    have hgate := view_pass none (fun rr => func rr obj) r (by rw [hm]; decide)
      (by rw [hm]; decide)
    simp only [delete_view, hres]
    simp [hm, hgate]
  · intro r hm
    constructor
    · intro u hu hne
      have hie : u.isEmpty = false := by
        cases hie2 : u.isEmpty with
        | false => rfl
        | true => exact absurd ((String.isEmpty_iff u).mp hie2) hne
      simp only [delete_view, hres]
      simp [hm, hu, pyTruthy, hie]
    · intro hfalse
      have hgate := view_pass none (fun rr => func rr obj) r (by rw [hm]; decide)
        (by rw [hm]; decide)
      simp only [delete_view, hres]
      simp [hm, hfalse, hgate]
  · have hnil : (objects.filter (fun w => w.pk != obj.pk)).filter
        (fun w => decide (w.pk = lookup)) = [] := by
      rw [List.filter_filter]
      rw [List.filter_eq_nil_iff]
      intro a ha
      simp only [Bool.and_eq_true, bne_iff_ne, decide_eq_true_eq]
      rintro ⟨h1, h2⟩
      exact h2 (h1.trans hobjpk.symm)
    simp only [get_object_or_404, hnil]

/-- Concrete instances of the C9 theorem: POST deletes the widget and
redirects; GET leaves the table untouched. -/
theorem delete_view_spec_witness :
    delete_view (some "/done") (fun w => w.pk) (fun _ w => w.text)
        (plainRequest Unit "POST" []) [Widget.mk 1 "x"] 1
      = .ok (Sum.inl (httpResponseRedirect "/done"), [])
    ∧ delete_view (some "/done") (fun w => w.pk) (fun _ w => w.text)
        (plainRequest Unit "GET" []) [Widget.mk 1 "x"] 1
      = .ok (Sum.inr "x", [Widget.mk 1 "x"]) := by
  have h := delete_view_spec (some "/done") (fun (_ : Request Unit) (w : Widget) => w.text)
      [Widget.mk 1 "x"] 1 (Widget.mk 1 "x") rfl
  constructor
  · have h2 := (h.2.1 (plainRequest Unit "POST" []) rfl).1 "/done" rfl (by decide)
    rw [show List.filter (fun w => w.pk != (Widget.mk 1 "x").pk) [Widget.mk 1 "x"]
        = ([] : List Widget) from rfl] at h2
    exact h2
  · exact h.1 (plainRequest Unit "GET" []) rfl

/-- Claim C10: once the gate passes, a handler returning no URL (`None`) or an
empty string yields 410 Gone; a non-empty URL yields a permanent 301 redirect
by default (`permanent=True`) and a temporary 302 when `permanent` is false,
with the request's query string appended after a `?` when the `query_string`
option is enabled, and the Location header carrying the final URL. -/
theorem redirect_view_spec (perm qstr : Bool) (func : Request γ → Option String)
    (r : Request γ) (hm1 : r.method ≠ "OPTIONS")
    (hm2 : HTTP_METHODS.contains r.method = true) :
    (func r = none → redirect_view perm qstr none func r = httpResponseGone
        ∧ httpResponseGone.status = 410)
    ∧ (func r = some "" → redirect_view perm qstr none func r = httpResponseGone)
    ∧ (∀ u, func r = some u → u ≠ "" →
        redirect_view perm qstr none func r
          = (if perm then httpResponsePermanentRedirect else httpResponseRedirect)
              (if qstr then u ++ "?" ++ r.query_string else u)
        ∧ (perm = true → (redirect_view perm qstr none func r).status = 301)
        ∧ (perm = false → (redirect_view perm qstr none func r).status = 302)
        ∧ headerValue (redirect_view perm qstr none func r).headers "Location"
            = some (if qstr then u ++ "?" ++ r.query_string else u)) := by
  have hgate := view_pass none func r hm1 hm2
  refine ⟨?_, ?_, ?_⟩
  · intro hf
    exact ⟨by simp [redirect_view, hgate, hf], rfl⟩
  · intro hf
    simp [redirect_view, hgate, hf]
  · intro u hf hne
    have hmain : redirect_view perm qstr none func r
        = (if perm then httpResponsePermanentRedirect else httpResponseRedirect)
            (if qstr then u ++ "?" ++ r.query_string else u) := by
      cases perm <;> cases qstr <;> simp [redirect_view, hgate, hf, hne]
    refine ⟨hmain, ?_, ?_, ?_⟩
    · intro hp
      subst hp
      rw [hmain]
      simp [httpResponsePermanentRedirect]
    · intro hp
      subst hp
      rw [hmain]
      simp [httpResponseRedirect]
    · rw [hmain]
      cases perm <;>
        simp [httpResponsePermanentRedirect, httpResponseRedirect, headerValue]

/-- Concrete instance of the C10 theorem: a permanent redirect with the query
string appended. -/
theorem redirect_view_spec_witness :
    redirect_view true true none (fun (_ : Request Unit) => some "http://x/")
        { method := "GET", GET := [], POST := [], query_string := "a=1",
          accessories := none }
      = httpResponsePermanentRedirect "http://x/?a=1" := by
  have h := ((redirect_view_spec true true (fun (_ : Request Unit) => some "http://x/")
      { method := "GET", GET := [], POST := [], query_string := "a=1",
        accessories := none }
      (by decide) (by decide)).2.2 "http://x/" rfl (by decide)).1
  exact h.trans (by decide)
